import Mathlib

/-!
# Future Hause — routing and draft-generation core, shallow embedding

Embedding of the deterministic LLM router (`classifyIntent`, `classifyRisk`,
`classifyPermanence`, `routeLLM`), the two draft adapters
(`OllamaDraftAdapter`, `RemoteDraftAdapter`) and the dashboard orchestrator
(`sendToLLM`), translated from the JavaScript/TypeScript sources.

Conventions of the embedding:
* JavaScript numbers used by the confidence heuristic are modelled as exact
  rationals (`ℚ`).  Every claim proved below depends only on the clamp to
  `[0,1]` and on comparisons with the literal constants, where the rational
  and the IEEE-double computations agree.
* JS string operations (`toLowerCase`, `trim`, `includes`, `startsWith`,
  `.length`) are modelled by the corresponding Lean `String` operations;
  all keyword constants in the sources are ASCII, where the two agree.
* `async` functions that perform one `fetch` under an abort timer are
  modelled as total functions of the request plus an explicit
  `FetchOutcome` describing how the network call resolved.  `try`/`catch`
  control flow becomes the corresponding case analysis, so "resolves,
  never rejects" is totality of the embedded function.
-/

namespace FutureHause

/-- Substring occurrence on character lists: `needle` occurs contiguously
inside `hay`. -/
def infixCheck (needle : List Char) : List Char → Bool
  | [] => needle.isEmpty
  | c :: rest => List.isPrefixOf needle (c :: rest) || infixCheck needle rest

/-- JS `String.prototype.includes`: substring containment. -/
def jsIncludes (hay needle : String) : Bool :=
  infixCheck needle.toList hay.toList

/-- ASCII lowercasing of one character (JS `toLowerCase` restricted to the
ASCII range; every keyword in the sources is ASCII). -/
def lowerChar (c : Char) : Char :=
  if 65 ≤ c.toNat ∧ c.toNat ≤ 90 then Char.ofNat (c.toNat + 32) else c

/-- JS `String.prototype.toLowerCase` (ASCII range). -/
def jsToLower (s : String) : String :=
  String.mk (s.toList.map lowerChar)

/-- The whitespace predicate of JS `String.prototype.trim` (ASCII range). -/
def isWS (c : Char) : Bool :=
  c == ' ' || c == '\t' || c == '\n' || c == '\r'

/-- JS `String.prototype.trim`: strip leading and trailing whitespace. -/
def jsTrim (s : String) : String :=
  String.mk (((s.toList.dropWhile isWS).reverse.dropWhile isWS).reverse)

/-- JS `String.prototype.startsWith`. -/
def jsStartsWith (s p : String) : Bool :=
  List.isPrefixOf p.toList s.toList

/-- JS `String.prototype.length` (UTF-16 code units; equal to the character
count on the ASCII texts considered here). -/
def jsLength (s : String) : Nat :=
  s.toList.length

/-- Intents of the router (`ui/llmRouter.js`). -/
inductive Intent where
  | question
  | draft_request
  | observation
  | meta
  | action
deriving DecidableEq, Repr

/-- Risk tiers of the router. -/
inductive Risk where
  | low
  | medium
  | high
deriving DecidableEq, Repr

/-- Permanence tiers of the router. -/
inductive Permanence where
  | ephemeral
  | draft_only
  | record_adjacent
deriving DecidableEq, Repr

/-- Normalization done by `classifyIntent`: `text.toLowerCase().trim()`. -/
def normalizeIntentInput (text : String) : String :=
  jsTrim (jsToLower text)

/-- The `meta` keyword check of `classifyIntent`, on normalized text. -/
def metaMatch (t : String) : Bool :=
  jsIncludes t "what is your purpose" ||
  jsIncludes t "what do you do" ||
  jsIncludes t "who are you" ||
  jsIncludes t "what is future hause" ||
  jsIncludes t "explain yourself"

/-- The `action` keyword check of `classifyIntent`, on normalized text. -/
def actionMatch (t : String) : Bool :=
  jsStartsWith t "do " ||
  jsStartsWith t "run " ||
  jsIncludes t "commit" ||
  jsIncludes t "push" ||
  jsIncludes t "write to" ||
  jsIncludes t "update the file" ||
  jsIncludes t "change the code" ||
  jsIncludes t "log this"

/-- The `draft_request` keyword check of `classifyIntent`, on normalized text. -/
def draftMatch (t : String) : Bool :=
  jsIncludes t "draft" ||
  jsIncludes t "write me" ||
  jsIncludes t "create a" ||
  jsIncludes t "generate a" ||
  jsIncludes t "timesheet" ||
  jsIncludes t "work log"

/-- The `question` check of `classifyIntent`, on normalized text. -/
def questionMatch (t : String) : Bool :=
  jsIncludes t "?" ||
  jsStartsWith t "what " ||
  jsStartsWith t "why " ||
  jsStartsWith t "how " ||
  jsStartsWith t "when " ||
  jsStartsWith t "can you"

/-- The function `classifyIntent` (ui/llmRouter.js): ordered keyword cascade, first match
wins, defaulting to `observation`.  (The `(text || "")` guard of the source
is the identity on strings; non-string inputs are handled by
`classifyIntentJS` below.) -/
def classifyIntent (text : String) : Intent :=
  let t := normalizeIntentInput text
  if metaMatch t then Intent.meta
  else if actionMatch t then Intent.action
  else if draftMatch t then Intent.draft_request
  else if questionMatch t then Intent.question
  else Intent.observation

/-- The high-risk keyword check of `classifyRisk`, on lowercased text. -/
def highRiskMatch (t : String) : Bool :=
  jsIncludes t "legal" ||
  jsIncludes t "medical" ||
  jsIncludes t "financial" ||
  jsIncludes t "invoice" ||
  jsIncludes t "compliance" ||
  jsIncludes t "lawsuit"

/-- The medium-risk keyword check of `classifyRisk`, on lowercased text. -/
def mediumRiskMatch (t : String) : Bool :=
  jsIncludes t "record" ||
  jsIncludes t "audit" ||
  jsIncludes t "action log" ||
  jsIncludes t "publish" ||
  jsIncludes t "send" ||
  jsIncludes t "customer" ||
  jsIncludes t "ticket"

/-- The function `classifyRisk` (ui/llmRouter.js): lowercases (no trim), checks the
high tier, then the medium tier, else `low`. -/
def classifyRisk (text : String) : Risk :=
  let t := jsToLower text
  if highRiskMatch t then Risk.high
  else if mediumRiskMatch t then Risk.medium
  else Risk.low

/-- The function `classifyPermanence` (ui/llmRouter.js). -/
def classifyPermanence (text : String) : Permanence :=
  let t := jsToLower text
  if jsIncludes t "action log" || jsIncludes t "save" || jsIncludes t "persist" ||
     jsIncludes t "record" || jsIncludes t "publish" || jsIncludes t "ticket" ||
     jsIncludes t "kb" then Permanence.record_adjacent
  else if jsIncludes t "draft" || jsIncludes t "timesheet" || jsIncludes t "work log" then
    Permanence.draft_only
  else Permanence.ephemeral

/-- The routing decision record returned by `routeLLM`. -/
structure RoutingDecision where
  intent : Intent
  risk : Risk
  permanence : Permanence
  allow_draft : Bool
  must_answer_directly : Bool
deriving DecidableEq, Repr

/-- The function `routeLLM` (ui/llmRouter.js): runs the three classifiers and derives
`allow_draft` and `must_answer_directly`. -/
def routeLLM (text : String) : RoutingDecision :=
  let intent := classifyIntent text
  let risk := classifyRisk text
  let permanence := classifyPermanence text
  { intent := intent
    risk := risk
    permanence := permanence
    allow_draft := intent == Intent.draft_request
    must_answer_directly := intent == Intent.question || intent == Intent.meta }

/-- A JavaScript value, as far as the router's input handling can observe
it: a string, or one of the other primitive shapes the `(text || "")`
guard and `.toLowerCase()` distinguish only through truthiness. -/
inductive JSValue where
  | str (s : String)
  | null
  | undefined
  | boolean (b : Bool)
  | number (n : Int)
deriving DecidableEq, Repr

/-- JS truthiness for `JSValue` (`NaN` is not representable here; all other
falsy primitives are). -/
def JSValue.truthy : JSValue → Bool
  | JSValue.str s => !(s == "")
  | JSValue.null => false
  | JSValue.undefined => false
  | JSValue.boolean b => b
  | JSValue.number n => !(n == 0)

/-- The `(text || "")` guard: a falsy input becomes the empty string, a
truthy input passes through unchanged. -/
def jsOrEmpty (v : JSValue) : JSValue :=
  if v.truthy then v else JSValue.str ""

/-- The behaviour of `routeLLM` applied to an arbitrary JS value.  `classifyIntent` evaluates
`(text || "").toLowerCase()`: on a string this is `routeLLM`; on a truthy
non-string, `.toLowerCase` is not a function and a `TypeError` escapes
(`routeLLM` has no catch). -/
def routeLLMJS (v : JSValue) : Except String RoutingDecision :=
  match jsOrEmpty v with
  | JSValue.str s => Except.ok (routeLLM s)
  | _ => Except.error "TypeError: t.toLowerCase is not a function"

/-! ## Draft adapter contract (engine/draft/DraftAdapter.ts) -/

/-- Risk flags of the draft adapter contract (closed enumeration). -/
inductive DraftRiskFlag where
  | low_confidence
  | ambiguous_request
  | missing_context
  | possible_hallucination
  | format_violation
  | model_timeout
  | unknown_error
deriving DecidableEq, Repr

/-- The record `DraftRequest` (input to an adapter). -/
structure DraftRequest where
  intent : String
  prompt : String
  constraints : List String
  maxTokens : Option Nat
deriving DecidableEq, Repr

/-- The record `DraftResult` (output of an adapter call).  `confidence` is a JS number,
modelled as an exact rational. -/
structure DraftResult where
  draftText : String
  confidence : ℚ
  model : String
  latencyMs : Nat
  riskFlags : List DraftRiskFlag
deriving DecidableEq, Repr

/-- How the single `fetch` of a `generateDraft` call resolved, as observable
by the adapter's `try`/`catch`:
* `timeout` — the abort timer fired before completion (`AbortError`);
* `networkError` — `fetch` rejected with any other error;
* `httpNotOk` — a response arrived with `response.ok` false;
* `badJson` — `response.json()` threw;
* `okJson data` — a parsed JSON body of the expected shape. -/
inductive FetchOutcome (α : Type) where
  | timeout
  | networkError
  | httpNotOk (status : Nat)
  | badJson
  | okJson (data : α)
deriving DecidableEq, Repr

/-- The clamp `Math.max(0, Math.min(1, score))`. -/
def clamp01 (x : ℚ) : ℚ :=
  max 0 (min 1 x)

/-! ## OllamaDraftAdapter (engine/draft/OllamaDraftAdapter.ts) -/

/-- JSON body shape the local adapter parses (`{ response?: string }`). -/
structure OllamaResponse where
  response : Option String
deriving DecidableEq, Repr

/-- Configuration of the local adapter (immutable after construction). -/
structure OllamaDraftAdapter where
  baseUrl : String
  model : String
  timeoutMs : Nat
deriving DecidableEq, Repr

/-- The constructor defaults of `OllamaDraftAdapter`. -/
def OllamaDraftAdapter.default : OllamaDraftAdapter :=
  { baseUrl := "http://localhost:11434", model := "mistral", timeoutMs := 15000 }

/-- The hedging test of the local heuristic:
`/I am not sure|cannot determine|unclear/i.test(text)`. -/
def ollamaHedging (text : String) : Bool :=
  let t := jsToLower text
  jsIncludes t "i am not sure" || jsIncludes t "cannot determine" || jsIncludes t "unclear"

/-- The absolutism test of the local heuristic:
`/definitely|guaranteed|certain/i.test(text)`. -/
def ollamaAbsolutism (text : String) : Bool :=
  let t := jsToLower text
  jsIncludes t "definitely" || jsIncludes t "guaranteed" || jsIncludes t "certain"

/-- The shared shape of both adapters' `estimateConfidence`: start at `0.6`,
apply the four checks in order (short output at `threshold`, hedging, short
prompt, absolutism), mutating `score` and appending flags as the source does
imperatively, then clamp to `[0,1]`.  Returns the final score together with
the flag array. -/
def estimateConfidenceWith (threshold : Nat) (hedging absolutism : String → Bool)
    (text : String) (request : DraftRequest) (riskFlags : List DraftRiskFlag) :
    ℚ × List DraftRiskFlag :=
  let p1 := jsLength text < threshold
  let p2 := hedging text
  let p3 := request.prompt == "" || jsLength request.prompt < 20
  let p4 := absolutism text
  let score : ℚ := 0.6 - (if p1 then 0.15 else 0) - (if p2 then 0.15 else 0) -
    (if p3 then 0.2 else 0) - (if p4 then 0.1 else 0)
  let flags := riskFlags ++
    (if p1 then [DraftRiskFlag.low_confidence] else []) ++
    (if p2 then [DraftRiskFlag.ambiguous_request] else []) ++
    (if p3 then [DraftRiskFlag.missing_context] else []) ++
    (if p4 then [DraftRiskFlag.possible_hallucination] else [])
  (clamp01 score, flags)

/-- The method `OllamaDraftAdapter.estimateConfidence`: threshold 100, local phrase
lists. -/
def OllamaDraftAdapter.estimateConfidence (text : String) (request : DraftRequest)
    (riskFlags : List DraftRiskFlag) : ℚ × List DraftRiskFlag :=
  estimateConfidenceWith 100 ollamaHedging ollamaAbsolutism text request riskFlags

/-- The method `OllamaDraftAdapter.generateDraft`, as a function of the request and of
the outcome of its single `fetch`.  Every branch of the source's
`try`/`catch` appears as a case; the function is total, so the call always
resolves to a `DraftResult` and never rethrows. -/
def OllamaDraftAdapter.generateDraft (a : OllamaDraftAdapter) (request : DraftRequest)
    (outcome : FetchOutcome OllamaResponse) (latencyMs : Nat) : DraftResult :=
  match outcome with
  | FetchOutcome.timeout =>
    -- catch with err.name = AbortError, no flags pushed yet
    { draftText := "", confidence := 0, model := a.model, latencyMs := latencyMs,
      riskFlags := [DraftRiskFlag.model_timeout] }
  | FetchOutcome.networkError =>
    -- catch with empty riskFlags
    { draftText := "", confidence := 0, model := a.model, latencyMs := latencyMs,
      riskFlags := [DraftRiskFlag.unknown_error] }
  | FetchOutcome.httpNotOk _ =>
    -- `!response.ok`: push unknown_error, throw, land in catch
    { draftText := "", confidence := 0, model := a.model, latencyMs := latencyMs,
      riskFlags := [DraftRiskFlag.unknown_error] }
  | FetchOutcome.badJson =>
    -- `response.json()` threw with empty riskFlags
    { draftText := "", confidence := 0, model := a.model, latencyMs := latencyMs,
      riskFlags := [DraftRiskFlag.unknown_error] }
  | FetchOutcome.okJson data =>
    match data.response with
    | none =>
      { draftText := "", confidence := 0, model := a.model, latencyMs := latencyMs,
        riskFlags := [DraftRiskFlag.low_confidence, DraftRiskFlag.missing_context] }
    | some r =>
      if (jsTrim r == "") then
        { draftText := "", confidence := 0, model := a.model, latencyMs := latencyMs,
          riskFlags := [DraftRiskFlag.low_confidence, DraftRiskFlag.missing_context] }
      else
        let draftText := jsTrim r
        let res := OllamaDraftAdapter.estimateConfidence draftText request []
        { draftText := draftText, confidence := res.1, model := a.model,
          latencyMs := latencyMs, riskFlags := res.2 }

/-! ## RemoteDraftAdapter (engine/draft/RemoteDraftAdapter.ts) -/

/-- One element of `choices` in the chat-completions response. -/
structure OpenAIMessage where
  content : Option String
deriving DecidableEq, Repr

/-- One choice of the chat-completions response. -/
structure OpenAIChoice where
  message : Option OpenAIMessage
deriving DecidableEq, Repr

/-- JSON body shape the remote adapter parses
(`{ choices?: [{ message?: { content?: string } }] }`). -/
structure OpenAIResponse where
  choices : Option (List OpenAIChoice)
deriving DecidableEq, Repr

/-- The optional-chaining extraction `data.choices?.[0]?.message?.content`. -/
def OpenAIResponse.firstContent (d : OpenAIResponse) : Option String :=
  match d.choices with
  | some (c :: _) =>
    match c.message with
    | some m => m.content
    | none => none
  | _ => none

/-- Configuration of the remote adapter.  The constructor throws when
`apiKey` is empty (a configuration error, before any request). -/
structure RemoteDraftAdapter where
  apiKey : String
  model : String
  timeoutMs : Nat
deriving DecidableEq, Repr

/-- The hedging test of the remote heuristic:
`/uncertain|not sure|cannot determine/i.test(text)`. -/
def remoteHedging (text : String) : Bool :=
  let t := jsToLower text
  jsIncludes t "uncertain" || jsIncludes t "not sure" || jsIncludes t "cannot determine"

/-- The absolutism test of the remote heuristic:
`/guaranteed|definitely|always/i.test(text)`. -/
def remoteAbsolutism (text : String) : Bool :=
  let t := jsToLower text
  jsIncludes t "guaranteed" || jsIncludes t "definitely" || jsIncludes t "always"

/-- The method `RemoteDraftAdapter.estimateConfidence`: the same `let score = 0.6`
start as the local adapter, threshold 120, remote phrase lists. -/
def RemoteDraftAdapter.estimateConfidence (text : String) (request : DraftRequest)
    (riskFlags : List DraftRiskFlag) : ℚ × List DraftRiskFlag :=
  estimateConfidenceWith 120 remoteHedging remoteAbsolutism text request riskFlags

/-- The method `RemoteDraftAdapter.generateDraft`, as a function of the request and of
the outcome of its single `fetch`.  The local variable `confidence = 0.55`
of the source is dead on every path: success overwrites it with
`estimateConfidence` (which starts at `0.6`) and every failure path returns
the literal `0.0`. -/
def RemoteDraftAdapter.generateDraft (a : RemoteDraftAdapter) (request : DraftRequest)
    (outcome : FetchOutcome OpenAIResponse) (latencyMs : Nat) : DraftResult :=
  match outcome with
  | FetchOutcome.timeout =>
    { draftText := "", confidence := 0, model := a.model, latencyMs := latencyMs,
      riskFlags := [DraftRiskFlag.model_timeout] }
  | FetchOutcome.networkError =>
    { draftText := "", confidence := 0, model := a.model, latencyMs := latencyMs,
      riskFlags := [DraftRiskFlag.unknown_error] }
  | FetchOutcome.httpNotOk _ =>
    { draftText := "", confidence := 0, model := a.model, latencyMs := latencyMs,
      riskFlags := [DraftRiskFlag.unknown_error] }
  | FetchOutcome.badJson =>
    { draftText := "", confidence := 0, model := a.model, latencyMs := latencyMs,
      riskFlags := [DraftRiskFlag.unknown_error] }
  | FetchOutcome.okJson data =>
    match data.firstContent with
    | none =>
      { draftText := "", confidence := 0, model := a.model, latencyMs := latencyMs,
        riskFlags := [DraftRiskFlag.low_confidence, DraftRiskFlag.missing_context] }
    | some content =>
      if (jsTrim content == "") then
        { draftText := "", confidence := 0, model := a.model, latencyMs := latencyMs,
          riskFlags := [DraftRiskFlag.low_confidence, DraftRiskFlag.missing_context] }
      else
        let draftText := jsTrim content
        let res := RemoteDraftAdapter.estimateConfidence draftText request []
        { draftText := draftText, confidence := res.1, model := a.model,
          latencyMs := latencyMs, riskFlags := res.2 }

/-- Modelled from the spec: the confidence heuristic the spec's sentence
attributes to the remote adapter — "identical contract and near-identical
confidence heuristic (initial 0.55, length threshold 120 chars, same
hedging/absolutism checks)" — i.e. the local adapter's checks with starting
value 0.55 and threshold 120.  Written from the spec's words, for
comparison with `RemoteDraftAdapter.estimateConfidence` above. -/
def remoteEstimateConfidenceSpec (text : String) (request : DraftRequest)
    (riskFlags : List DraftRiskFlag) : ℚ × List DraftRiskFlag :=
  let p1 := jsLength text < 120
  let p2 := ollamaHedging text
  let p3 := request.prompt == "" || jsLength request.prompt < 20
  let p4 := ollamaAbsolutism text
  let score : ℚ := 0.55 - (if p1 then 0.15 else 0) - (if p2 then 0.15 else 0) -
    (if p3 then 0.2 else 0) - (if p4 then 0.1 else 0)
  let flags := riskFlags ++
    (if p1 then [DraftRiskFlag.low_confidence] else []) ++
    (if p2 then [DraftRiskFlag.ambiguous_request] else []) ++
    (if p3 then [DraftRiskFlag.missing_context] else []) ++
    (if p4 then [DraftRiskFlag.possible_hallucination] else [])
  (clamp01 score, flags)

/-! ## Orchestrator (tools/local_claude_ui web app, `sendToLLM`) -/

/-- The type `RuntimeMode` (config/runtime.ts). -/
inductive RuntimeMode where
  | LOCAL
  | WORK_REMOTE
  | DEMO
  | AIRPLANE
deriving DecidableEq, Repr

/-- The constant `DEFAULT_RUNTIME_MODE` (config/runtime.ts). -/
def DEFAULT_RUNTIME_MODE : RuntimeMode := RuntimeMode.LOCAL

/-- The purpose-disclosure triggers of `checkPurposeDisclosure`. -/
def purposeTriggers : List String :=
  ["what is your purpose", "what do you do", "what are you", "who are you",
   "what is future hause", "explain yourself", "what can you do", "your role",
   "your purpose"]

/-- The guard `checkPurposeDisclosure` fires iff the lowercased input contains one of
the triggers (it then returns a canned response and `sendToLLM` returns it
before routing). -/
def checkPurposeDisclosure (userInput : String) : Bool :=
  purposeTriggers.any (fun trig => jsIncludes (jsToLower userInput) trig)

/-- The observable shape of what `sendToLLM` returned for one input. -/
inductive SendResponseKind where
  | disclosure
  | draftRendered
  | questionResponse
  | metaResponse
  | actionRefusal
  | observationAck
deriving DecidableEq, Repr

/-- The orchestrator `sendToLLM` (with the router loaded, the only configuration the claims
concern), returning the number of draft-adapter (`callOllama`) invocations
it performs together with the kind of response produced.  The source calls
`callOllama` exactly in the `intent === 'draft_request' && allow_draft`
branch and nowhere else; classification (`routeLLM`) is synchronous and
precedes that branch. -/
def sendToLLM (message : String) : Nat × SendResponseKind :=
  if checkPurposeDisclosure message then (0, SendResponseKind.disclosure)
  else
    let d := routeLLM message
    if d.intent == Intent.draft_request && d.allow_draft then
      (1, SendResponseKind.draftRendered)
    else if d.intent == Intent.question then (0, SendResponseKind.questionResponse)
    else if d.intent == Intent.meta then (0, SendResponseKind.metaResponse)
    else if d.intent == Intent.action then (0, SendResponseKind.actionRefusal)
    else (0, SendResponseKind.observationAck)

/-- The orchestrator `sendToLLM` as a function of the configured runtime mode.  The source of
`sendToLLM` reads no runtime mode at all (no code outside `config/` consumes
`RuntimeMode`), so the behaviour is the same constant in every mode; the
parameter exists to state mode-dependent claims. -/
def sendToLLMInMode (_mode : RuntimeMode) (message : String) : Nat × SendResponseKind :=
  sendToLLM message

/-! ## Helper lemmas -/

/-- The clamp `clamp01` is nonnegative. -/
theorem clamp01_nonneg (x : ℚ) : 0 ≤ clamp01 x :=
  le_max_left 0 _

/-- The clamp `clamp01` is bounded by one. -/
theorem clamp01_le_one (x : ℚ) : clamp01 x ≤ 1 :=
  max_le (by norm_num) (min_le_left 1 x)

/-- The router `routeLLM` derives `allow_draft` as `intent == draft_request`. -/
theorem routeLLM_allow_draft (text : String) :
    (routeLLM text).allow_draft = ((routeLLM text).intent == Intent.draft_request) :=
  rfl

/-! ## Claims -/

/-- C1: for every `DraftRequest`, if the underlying HTTP call of either
adapter times out (the abort fires before completion), `generateDraft`
resolves to a structured result — totality of the embedded function, i.e.
the `catch` swallows the `AbortError` — with `draftText = ""`,
`confidence = 0.0` and `riskFlags` containing `model_timeout`. -/
theorem generateDraft_timeout_fails_closed :
    (∀ (a : OllamaDraftAdapter) (request : DraftRequest) (lat : Nat),
      (a.generateDraft request FetchOutcome.timeout lat).draftText = "" ∧
      (a.generateDraft request FetchOutcome.timeout lat).confidence = 0 ∧
      DraftRiskFlag.model_timeout ∈ (a.generateDraft request FetchOutcome.timeout lat).riskFlags) ∧
    (∀ (b : RemoteDraftAdapter) (request : DraftRequest) (lat : Nat),
      (b.generateDraft request FetchOutcome.timeout lat).draftText = "" ∧
      (b.generateDraft request FetchOutcome.timeout lat).confidence = 0 ∧
      DraftRiskFlag.model_timeout ∈ (b.generateDraft request FetchOutcome.timeout lat).riskFlags) := by
  constructor
  · intro a request lat
    exact ⟨rfl, rfl, List.mem_singleton.mpr rfl⟩
  · intro b request lat
    exact ⟨rfl, rfl, List.mem_singleton.mpr rfl⟩

/-- C2 (divergence witness): in `AIRPLANE` runtime mode a `draft_request`
input still performs one draft-adapter (`callOllama`) invocation and renders
a draft, because `sendToLLM` never consults the runtime mode; no branch of
it produces a drafting-disabled explanation. -/
theorem airplane_draft_request_still_invokes_adapter :
    (routeLLM "draft a work log for today").intent = Intent.draft_request ∧
    sendToLLMInMode RuntimeMode.AIRPLANE "draft a work log for today" =
      (1, SendResponseKind.draftRendered) := by
  decide

/-- C3 (counterexample): the remote confidence heuristic is not the local
one with initial `0.55` and threshold 120.  On the short output `"x"` the
code yields `0.45` (its `estimateConfidence` starts at `0.6`, like the local
one) while the spec's heuristic yields `0.4`; on `"unclear."` the spec's
heuristic (local hedging list) adds `ambiguous_request` but the code (list
`uncertain`/`not sure`/`cannot determine`) does not; on `"It always
happens."` the code adds `possible_hallucination` (list
`guaranteed`/`definitely`/`always`) but the spec's heuristic does not. -/
theorem remote_confidence_heuristic_counterexample :
    (RemoteDraftAdapter.estimateConfidence "x" ⟨"draft", "this prompt is long enough yes", [], none⟩ []).1 = 0.45 ∧
    (remoteEstimateConfidenceSpec "x" ⟨"draft", "this prompt is long enough yes", [], none⟩ []).1 = 0.4 ∧
    (RemoteDraftAdapter.estimateConfidence "x" ⟨"draft", "this prompt is long enough yes", [], none⟩ []).1 ≠
      (remoteEstimateConfidenceSpec "x" ⟨"draft", "this prompt is long enough yes", [], none⟩ []).1 ∧
    DraftRiskFlag.ambiguous_request ∈
      (remoteEstimateConfidenceSpec "unclear." ⟨"draft", "this prompt is long enough yes", [], none⟩ []).2 ∧
    DraftRiskFlag.ambiguous_request ∉
      (RemoteDraftAdapter.estimateConfidence "unclear." ⟨"draft", "this prompt is long enough yes", [], none⟩ []).2 ∧
    DraftRiskFlag.possible_hallucination ∈
      (RemoteDraftAdapter.estimateConfidence "It always happens." ⟨"draft", "this prompt is long enough yes", [], none⟩ []).2 ∧
    DraftRiskFlag.possible_hallucination ∉
      (remoteEstimateConfidenceSpec "It always happens." ⟨"draft", "this prompt is long enough yes", [], none⟩ []).2 := by
  refine ⟨?_, ?_, ?_, ?_, ?_, ?_, ?_⟩
  · norm_num +decide [RemoteDraftAdapter.estimateConfidence, estimateConfidenceWith, clamp01]
  · norm_num +decide [remoteEstimateConfidenceSpec, clamp01]
  · norm_num +decide [RemoteDraftAdapter.estimateConfidence, estimateConfidenceWith,
      remoteEstimateConfidenceSpec, clamp01]
  · decide
  · decide
  · decide
  · decide

/-- C3 (amended): on a successful response the remote adapter computes
confidence by the same heuristic shape as the local adapter — the same
starting value `0.6` (the constructor's `0.55` initial is overwritten on
success), the same penalties `0.15/0.15/0.2/0.1` and the same prompt-length
check — with short-output threshold 120 instead of 100, hedging list
`uncertain`/`not sure`/`cannot determine` instead of the local
`I am not sure`/`cannot determine`/`unclear`, and absolutism list
`guaranteed`/`definitely`/`always` instead of the local
`definitely`/`guaranteed`/`certain`. -/
theorem remote_confidence_heuristic_amended :
    ∀ (text : String) (request : DraftRequest),
      (RemoteDraftAdapter.estimateConfidence text request []).1 =
        clamp01 (0.6 - (if jsLength text < 120 then 0.15 else 0) -
          (if remoteHedging text then 0.15 else 0) -
          (if (request.prompt == "" || jsLength request.prompt < 20) then 0.2 else 0) -
          (if remoteAbsolutism text then 0.1 else 0)) ∧
      (OllamaDraftAdapter.estimateConfidence text request []).1 =
        clamp01 (0.6 - (if jsLength text < 100 then 0.15 else 0) -
          (if ollamaHedging text then 0.15 else 0) -
          (if (request.prompt == "" || jsLength request.prompt < 20) then 0.2 else 0) -
          (if ollamaAbsolutism text then 0.1 else 0)) :=
  fun _ _ => ⟨rfl, rfl⟩

/-- C4 (counterexample): an output containing the substring `"not sure"`
does not receive the hedging penalty of the local heuristic.  On
`"Not sure about this draft at all."` (which contains `"not sure"`
case-insensitively but not `"I am not sure"`) the local adapter adds no
`ambiguous_request` flag and the score is `0.45` — only the short-output
penalty applied, not `0.3`. -/
theorem ollama_not_sure_no_penalty_counterexample :
    jsIncludes (jsToLower "Not sure about this draft at all.") "not sure" = true ∧
    DraftRiskFlag.ambiguous_request ∉
      (OllamaDraftAdapter.estimateConfidence "Not sure about this draft at all."
        ⟨"draft", "please draft something long enough", [], none⟩ []).2 ∧
    (OllamaDraftAdapter.estimateConfidence "Not sure about this draft at all."
      ⟨"draft", "please draft something long enough", [], none⟩ []).1 = 0.45 := by
  refine ⟨?_, ?_, ?_⟩
  · decide
  · decide
  · norm_num +decide [OllamaDraftAdapter.estimateConfidence, estimateConfidenceWith, clamp01]

/-- C4 (amended): for the local adapter, on a successful response whose
output matches one of the hedging phrases `"I am not sure"`,
`"cannot determine"`, `"unclear"` (case-insensitive — the `ollamaHedging`
test), the heuristic subtracts `0.15` and adds the `ambiguous_request` risk
flag, alongside whatever other penalties apply. -/
theorem ollama_hedging_phrase_penalty (text : String) (request : DraftRequest)
    (h : ollamaHedging text = true) :
    DraftRiskFlag.ambiguous_request ∈ (OllamaDraftAdapter.estimateConfidence text request []).2 ∧
    (OllamaDraftAdapter.estimateConfidence text request []).1 =
      clamp01 (0.6 - (if jsLength text < 100 then 0.15 else 0) - 0.15 -
        (if (request.prompt == "" || jsLength request.prompt < 20) then 0.2 else 0) -
        (if ollamaAbsolutism text then 0.1 else 0)) := by
  unfold OllamaDraftAdapter.estimateConfidence estimateConfidenceWith
  rw [h]
  constructor
  · simp [List.mem_append]
  · simp

/-- Witness for C4's amended theorem at the concrete hedging output
`"unclear"` with a short prompt. -/
theorem ollama_hedging_phrase_penalty_witness :
    DraftRiskFlag.ambiguous_request ∈
      (OllamaDraftAdapter.estimateConfidence "unclear" ⟨"draft", "hi", [], none⟩ []).2 ∧
    (OllamaDraftAdapter.estimateConfidence "unclear" ⟨"draft", "hi", [], none⟩ []).1 =
      clamp01 (0.6 - (if jsLength "unclear" < 100 then 0.15 else 0) - 0.15 -
        (if (("hi" : String) == "" || jsLength "hi" < 20) then 0.2 else 0) -
        (if ollamaAbsolutism "unclear" then 0.1 else 0)) :=
  ollama_hedging_phrase_penalty "unclear" ⟨"draft", "hi", [], none⟩ (by decide)

/-- C5 (counterexample): `routeLLM` applied to the truthy non-string `1`
throws a `TypeError` (the `(text || "")` guard passes `1` through and
`.toLowerCase` is not a function), instead of being treated as the empty
string and classified as a safe-default observation. -/
theorem route_truthy_nonstring_throws :
    routeLLMJS (JSValue.number 1) =
      Except.error "TypeError: t.toLowerCase is not a function" ∧
    routeLLMJS (JSValue.number 1) ≠
      Except.ok ⟨Intent.observation, Risk.low, Permanence.ephemeral, false, false⟩ :=
  ⟨rfl, fun h => Except.noConfusion h⟩

/-- C5 (amended): `routeLLM` never throws on a string input, and every
falsy input (`null`, `undefined`, `""`, `false`, `0`) is treated as the
empty string and yields `intent = observation`, `risk = low`,
`permanence = ephemeral`, `allow_draft = false`,
`must_answer_directly = false`; a truthy non-string input, however, throws.
-/
theorem route_string_or_falsy_never_throws :
    (∀ s : String, routeLLMJS (JSValue.str s) = Except.ok (routeLLM s)) ∧
    (∀ v : JSValue, v.truthy = false →
      routeLLMJS v =
        Except.ok ⟨Intent.observation, Risk.low, Permanence.ephemeral, false, false⟩) := by
  constructor
  · intro s
    unfold routeLLMJS jsOrEmpty
    by_cases h : (JSValue.str s).truthy = true
    · rw [if_pos h]
    · rw [if_neg h]
      have hb : (s == "") = true := by
        cases hb : s == "" with
        | true => rfl
        | false => exact absurd (show (!(s == "")) = true by rw [hb]; rfl) h
      rw [eq_of_beq hb]
  · intro v h
    unfold routeLLMJS jsOrEmpty
    rw [h]
    show Except.ok (routeLLM "") = _
    exact congrArg Except.ok (by decide)

/-- Witness for C5's amended theorem: `route(undefined)` returns the safe
default decision. -/
theorem route_string_or_falsy_never_throws_witness :
    routeLLMJS JSValue.undefined =
      Except.ok ⟨Intent.observation, Risk.low, Permanence.ephemeral, false, false⟩ :=
  route_string_or_falsy_never_throws.2 JSValue.undefined rfl

/-- C6: the orchestrator invokes no draft adapter for any input whose
routing decision is not a `draft_request` (in particular for every
`question`), and the adapter-calling branch is reachable only when the
intent is `draft_request` with `allow_draft` true; classification
(`routeLLM`) is a synchronous pure function evaluated before that branch. -/
theorem sendToLLM_no_adapter_unless_draft (message : String) :
    ((routeLLM message).intent ≠ Intent.draft_request → (sendToLLM message).1 = 0) ∧
    ((sendToLLM message).1 ≠ 0 →
      (routeLLM message).intent = Intent.draft_request ∧
      (routeLLM message).allow_draft = true) := by
  have part1 : (routeLLM message).intent ≠ Intent.draft_request → (sendToLLM message).1 = 0 := by
    intro h
    have hb : ((routeLLM message).intent == Intent.draft_request) = false := by
      cases hI : (routeLLM message).intent <;> simp_all
    simp only [sendToLLM, hb, Bool.false_and, Bool.false_eq_true, if_false]
    split
    · rfl
    · split
      · rfl
      · split
        · rfl
        · split <;> rfl
  refine ⟨part1, ?_⟩
  intro h
  by_cases hI : (routeLLM message).intent = Intent.draft_request
  · refine ⟨hI, ?_⟩
    rw [routeLLM_allow_draft, hI]
    decide
  · exact absurd (part1 hI) h

/-- Witness for C6 at the question input `"what time is it?"`: zero adapter
invocations. -/
theorem sendToLLM_no_adapter_unless_draft_witness :
    (sendToLLM "what time is it?").1 = 0 :=
  (sendToLLM_no_adapter_unless_draft "what time is it?").1 (by decide)

/-- C7: `classifyIntent` checks the intent categories in the fixed priority
order meta, action, draft_request, question, observation-default, first
match winning; in particular `route("What is Future Hause?")` yields
`intent = meta` although the question check would also match. -/
theorem classifyIntent_priority_order :
    (∀ t : String, metaMatch (normalizeIntentInput t) = true →
      classifyIntent t = Intent.meta) ∧
    (∀ t : String, metaMatch (normalizeIntentInput t) = false →
      actionMatch (normalizeIntentInput t) = true →
      classifyIntent t = Intent.action) ∧
    (∀ t : String, metaMatch (normalizeIntentInput t) = false →
      actionMatch (normalizeIntentInput t) = false →
      draftMatch (normalizeIntentInput t) = true →
      classifyIntent t = Intent.draft_request) ∧
    (∀ t : String, metaMatch (normalizeIntentInput t) = false →
      actionMatch (normalizeIntentInput t) = false →
      draftMatch (normalizeIntentInput t) = false →
      questionMatch (normalizeIntentInput t) = true →
      classifyIntent t = Intent.question) ∧
    (∀ t : String, metaMatch (normalizeIntentInput t) = false →
      actionMatch (normalizeIntentInput t) = false →
      draftMatch (normalizeIntentInput t) = false →
      questionMatch (normalizeIntentInput t) = false →
      classifyIntent t = Intent.observation) ∧
    (routeLLM "What is Future Hause?").intent = Intent.meta ∧
    metaMatch (normalizeIntentInput "What is Future Hause?") = true ∧
    questionMatch (normalizeIntentInput "What is Future Hause?") = true := by
  refine ⟨?_, ?_, ?_, ?_, ?_, ?_, ?_, ?_⟩
  · intro t h1
    simp [classifyIntent, h1]
  · intro t h1 h2
    simp [classifyIntent, h1, h2]
  · intro t h1 h2 h3
    simp [classifyIntent, h1, h2, h3]
  · intro t h1 h2 h3 h4
    simp [classifyIntent, h1, h2, h3, h4]
  · intro t h1 h2 h3 h4
    simp [classifyIntent, h1, h2, h3, h4]
  · decide
  · decide
  · decide

/-- Witness for C7's ordered cascade at `"commit this change"`: the meta
check fails, the action check matches, so the intent is `action`. -/
theorem classifyIntent_priority_order_witness :
    classifyIntent "commit this change" = Intent.action :=
  classifyIntent_priority_order.2.1 "commit this change" (by decide) (by decide)

/-- C8: `classifyRisk` checks the high-risk keyword tier before the medium
tier and the first matching tier wins; in particular
`route("send an invoice to the customer")` yields `risk = high` although
the medium tier (`send`, `customer`) also matches. -/
theorem classifyRisk_tier_priority :
    (∀ t : String, highRiskMatch (jsToLower t) = true → classifyRisk t = Risk.high) ∧
    (∀ t : String, highRiskMatch (jsToLower t) = false →
      mediumRiskMatch (jsToLower t) = true → classifyRisk t = Risk.medium) ∧
    (∀ t : String, highRiskMatch (jsToLower t) = false →
      mediumRiskMatch (jsToLower t) = false → classifyRisk t = Risk.low) ∧
    (routeLLM "send an invoice to the customer").risk = Risk.high ∧
    highRiskMatch (jsToLower "send an invoice to the customer") = true ∧
    mediumRiskMatch (jsToLower "send an invoice to the customer") = true := by
  refine ⟨?_, ?_, ?_, ?_, ?_, ?_⟩
  · intro t h1
    simp [classifyRisk, h1]
  · intro t h1 h2
    simp [classifyRisk, h1, h2]
  · intro t h1 h2
    simp [classifyRisk, h1, h2]
  · decide
  · decide
  · decide

/-- Witness for C8's tier order at `"send a note to the customer"`: the
high tier fails, the medium tier matches, so the risk is `medium`. -/
theorem classifyRisk_tier_priority_witness :
    classifyRisk "send a note to the customer" = Risk.medium :=
  classifyRisk_tier_priority.2.1 "send a note to the customer" (by decide) (by decide)

/-- C9: for every request and every outcome of the model call, the
confidence of the `DraftResult` returned by either adapter lies in
`[0.0, 1.0]`, even when several heuristic penalties stack (the heuristic
clamps, and every failure path returns `0.0`). -/
theorem generateDraft_confidence_in_unit_interval :
    (∀ (a : OllamaDraftAdapter) (request : DraftRequest)
      (o : FetchOutcome OllamaResponse) (lat : Nat),
      0 ≤ (a.generateDraft request o lat).confidence ∧
      (a.generateDraft request o lat).confidence ≤ 1) ∧
    (∀ (b : RemoteDraftAdapter) (request : DraftRequest)
      (o : FetchOutcome OpenAIResponse) (lat : Nat),
      0 ≤ (b.generateDraft request o lat).confidence ∧
      (b.generateDraft request o lat).confidence ≤ 1) := by
  constructor
  · intro a request o lat
    cases o with
    | timeout => exact ⟨le_refl 0, zero_le_one⟩
    | networkError => exact ⟨le_refl 0, zero_le_one⟩
    | httpNotOk status => exact ⟨le_refl 0, zero_le_one⟩
    | badJson => exact ⟨le_refl 0, zero_le_one⟩
    | okJson data =>
      rcases data with ⟨resp⟩
      cases resp with
      | none => exact ⟨le_refl 0, zero_le_one⟩
      | some r =>
        by_cases h : (jsTrim r == "") = true
        · simp only [OllamaDraftAdapter.generateDraft, h, if_true]
          exact ⟨le_refl 0, zero_le_one⟩
        · simp only [OllamaDraftAdapter.generateDraft, h, if_false]
          exact ⟨clamp01_nonneg _, clamp01_le_one _⟩
  · intro b request o lat
    cases o with
    | timeout => exact ⟨le_refl 0, zero_le_one⟩
    | networkError => exact ⟨le_refl 0, zero_le_one⟩
    | httpNotOk status => exact ⟨le_refl 0, zero_le_one⟩
    | badJson => exact ⟨le_refl 0, zero_le_one⟩
    | okJson data =>
      cases hc : data.firstContent with
      | none =>
        simp only [RemoteDraftAdapter.generateDraft, hc]
        exact ⟨le_refl 0, zero_le_one⟩
      | some content =>
        by_cases h : (jsTrim content == "") = true
        · simp only [RemoteDraftAdapter.generateDraft, hc, h, if_true]
          exact ⟨le_refl 0, zero_le_one⟩
        · simp only [RemoteDraftAdapter.generateDraft, hc, h, if_false]
          exact ⟨clamp01_nonneg _, clamp01_le_one _⟩

/-- C10: for both adapters there is a successful response whose
`DraftResult` carries a non-empty draft with confidence exactly `0.0`: when
all four penalties apply they sum to `0.6` and cancel the `0.6` starting
score (in IEEE doubles the sum overshoots by one ulp and the clamp makes
the result exactly `0.0` as well), so confidence `0.0` does not imply
failure or empty draft text. -/
theorem confidence_zero_with_nonempty_draft :
    (OllamaDraftAdapter.default.generateDraft ⟨"draft_request", "hi", [], none⟩
      (FetchOutcome.okJson ⟨some "I am not sure, definitely."⟩) 7).draftText =
      "I am not sure, definitely." ∧
    (OllamaDraftAdapter.default.generateDraft ⟨"draft_request", "hi", [], none⟩
      (FetchOutcome.okJson ⟨some "I am not sure, definitely."⟩) 7).draftText ≠ "" ∧
    (OllamaDraftAdapter.default.generateDraft ⟨"draft_request", "hi", [], none⟩
      (FetchOutcome.okJson ⟨some "I am not sure, definitely."⟩) 7).confidence = 0 ∧
    (RemoteDraftAdapter.generateDraft ⟨"key", "gpt-4o-mini", 15000⟩
      ⟨"draft_request", "hi", [], none⟩
      (FetchOutcome.okJson ⟨some [⟨some ⟨some "It is uncertain, guaranteed."⟩⟩]⟩) 7).draftText =
      "It is uncertain, guaranteed." ∧
    (RemoteDraftAdapter.generateDraft ⟨"key", "gpt-4o-mini", 15000⟩
      ⟨"draft_request", "hi", [], none⟩
      (FetchOutcome.okJson ⟨some [⟨some ⟨some "It is uncertain, guaranteed."⟩⟩]⟩) 7).draftText ≠ "" ∧
    (RemoteDraftAdapter.generateDraft ⟨"key", "gpt-4o-mini", 15000⟩
      ⟨"draft_request", "hi", [], none⟩
      (FetchOutcome.okJson ⟨some [⟨some ⟨some "It is uncertain, guaranteed."⟩⟩]⟩) 7).confidence = 0 := by
  refine ⟨?_, ?_, ?_, ?_, ?_, ?_⟩
  · decide
  · decide
  · norm_num +decide [OllamaDraftAdapter.generateDraft, OllamaDraftAdapter.estimateConfidence,
      estimateConfidenceWith, clamp01]
  · decide
  · decide
  · norm_num +decide [RemoteDraftAdapter.generateDraft, RemoteDraftAdapter.estimateConfidence,
      OpenAIResponse.firstContent, estimateConfidenceWith, clamp01]

end FutureHause
